import Mathlib

/-!
Shallow embedding of the `bl-svm` HTLC program
(`src/bl-svm/programs/bl-svm/src/`): the escrow state (`state.rs`), the
error enumeration (`errors.rs`) and the three instruction handlers
(`create_htlc.rs`, `withdraw.rs`, `cancel.rs`), together with theorems
about the lifecycle, the error mapping and the balance accounting.

Modelling conventions:
* `Pubkey` is an abstract identity, modelled as `Nat`; `Pubkey.default`
  (the all-zero key) is `0`.
* Byte strings (`[u8; 32]`, `[u8; 20]`) are `List Nat`.
* `u64` amounts are `Nat`; `i64` timestamps are `Int`.
* The SHA-256 digest used by `solana_program::hash::hashv` is an external
  collaborator; the handlers are parametric in it.  `hashv` itself is
  embedded as the digest of the concatenation of its input slices, exactly
  as the SDK computes it.
* Token and lamport transfers are embedded as explicit balance updates
  that fail (aborting the whole instruction, as the runtime rolls back a
  failed transaction) when the source balance is insufficient.
-/

namespace BlSvm

/-- An abstract ledger identity (`anchor_lang::prelude::Pubkey`). -/
abbrev Pubkey : Type := Nat

/-- `Pubkey::default()`, the all-zero public key. -/
def Pubkey.default : Pubkey := 0

/-- A byte string (`[u8; N]` in the source). -/
abbrev Bytes : Type := List Nat

/-- The all-zero 20-byte array `[0u8; 20]`. -/
def zeros20 : Bytes := List.replicate 20 0

/-- `HTLCError` from `errors.rs`: the program's enumerated error codes. -/
inductive HTLCError : Type
  | InvalidTimelockOrder
  | InvalidAmount
  | InvalidTokenMint
  | InvalidDestination
  | WithdrawalNotAllowed
  | CancellationNotAllowed
  | AlreadyWithdrawn
  | AlreadyCancelled
  | InvalidPreimage
  | InvalidSafetyDeposit
  deriving DecidableEq, Repr

/-- The observable failure of an instruction: either one of the program's
own `HTLCError` codes, or a failure propagated from a CPI transfer
(insufficient token balance in the debited account, or insufficient
lamports in the debited account). -/
inductive ProgramError : Type
  | htlc : HTLCError → ProgramError
  | tokenTransferFailed
  | insufficientLamports
  deriving DecidableEq, Repr

/-- The `HTLC` account from `state.rs`. -/
structure HTLC : Type where
  resolver : Pubkey
  src_address : Pubkey
  dst_address : Bytes
  src_token : Pubkey
  dst_token : Bytes
  amount : Nat
  safety_deposit : Nat
  hashlock : Bytes
  htlc_id : Bytes
  finality_deadline : Int
  resolver_deadline : Int
  public_deadline : Int
  cancellation_deadline : Int
  withdrawn : Bool
  cancelled : Bool
  created_at : Int
  bump : Nat
  deriving DecidableEq, Repr

/-- `CreateHTLCParams` from `create_htlc.rs`. -/
structure CreateHTLCParams : Type where
  htlc_id : Bytes
  dst_address : Bytes
  dst_token : Bytes
  amount : Nat
  safety_deposit : Nat
  hashlock : Bytes
  finality_deadline : Int
  resolver_deadline : Int
  public_deadline : Int
  cancellation_deadline : Int
  deriving DecidableEq, Repr

/-- `solana_program::hash::hashv`: the SHA-256 digest of the concatenation
of the input slices.  Parametric in the digest function `sha256`, an
external collaborator of the program. -/
def hashv (sha256 : Bytes → Bytes) (slices : List Bytes) : Bytes :=
  sha256 slices.flatten

/-- An SPL-token CPI `transfer`: debits `amount` from the source balance
and credits it to the destination, failing when the source balance is
insufficient. -/
def spl_transfer (from_balance to_balance amount : Nat) :
    Except ProgramError (Nat × Nat) :=
  if amount ≤ from_balance then
    Except.ok (from_balance - amount, to_balance + amount)
  else
    Except.error ProgramError.tokenTransferFailed

/-- A lamport (native currency) movement between two accounts, failing
when the debited account holds fewer lamports than requested. -/
def lamport_transfer (from_balance to_balance amount : Nat) :
    Except ProgramError (Nat × Nat) :=
  if amount ≤ from_balance then
    Except.ok (from_balance - amount, to_balance + amount)
  else
    Except.error ProgramError.insufficientLamports

/-- The mutable accounts touched by `create_htlc::handler`, beyond the
HTLC record itself: the caller's identity and token balance, the freshly
initialized vault's token balance, and the two lamport balances moved by
the safety-deposit transfer. -/
structure CreateAccounts : Type where
  resolver : Pubkey
  token_mint : Pubkey
  resolver_token_balance : Nat
  vault_balance : Nat
  resolver_lamports : Nat
  htlc_lamports : Nat
  deriving DecidableEq, Repr

/-- `create_htlc::handler` (`create_htlc.rs`): validates the parameters,
initializes the record, moves `amount` tokens from the resolver's token
account into the vault and `safety_deposit` lamports from the resolver
into the HTLC account.  `current_time` is `Clock::get()?.unix_timestamp`
and `bump` the PDA bump supplied by the runtime. -/
def create_handler (current_time : Int) (bump : Nat)
    (acc : CreateAccounts) (params : CreateHTLCParams) :
    Except ProgramError (HTLC × CreateAccounts) :=
  if ¬ params.amount > 0 then
    Except.error (ProgramError.htlc HTLCError.InvalidAmount)
  else if ¬ params.safety_deposit > 0 then
    Except.error (ProgramError.htlc HTLCError.InvalidSafetyDeposit)
  else if ¬ acc.token_mint ≠ Pubkey.default then
    Except.error (ProgramError.htlc HTLCError.InvalidTokenMint)
  else if ¬ params.dst_address ≠ zeros20 then
    Except.error (ProgramError.htlc HTLCError.InvalidDestination)
  else if ¬ params.dst_token ≠ zeros20 then
    Except.error (ProgramError.htlc HTLCError.InvalidDestination)
  else if ¬ (params.finality_deadline < params.resolver_deadline
      ∧ params.resolver_deadline < params.public_deadline
      ∧ params.public_deadline < params.cancellation_deadline) then
    Except.error (ProgramError.htlc HTLCError.InvalidTimelockOrder)
  else
    let htlc : HTLC :=
      { resolver := acc.resolver
        src_address := acc.resolver
        dst_address := params.dst_address
        src_token := acc.token_mint
        dst_token := params.dst_token
        amount := params.amount
        safety_deposit := params.safety_deposit
        hashlock := params.hashlock
        htlc_id := params.htlc_id
        finality_deadline := params.finality_deadline
        resolver_deadline := params.resolver_deadline
        public_deadline := params.public_deadline
        cancellation_deadline := params.cancellation_deadline
        withdrawn := false
        cancelled := false
        created_at := current_time
        bump := bump }
    match spl_transfer acc.resolver_token_balance acc.vault_balance
        params.amount with
    | Except.error e => Except.error e
    | Except.ok (rtb, vb) =>
      match lamport_transfer acc.resolver_lamports acc.htlc_lamports
          params.safety_deposit with
      | Except.error e => Except.error e
      | Except.ok (rl, hl) =>
        Except.ok (htlc,
          { acc with
            resolver_token_balance := rtb
            vault_balance := vb
            resolver_lamports := rl
            htlc_lamports := hl })

/-- The mutable accounts touched by `withdraw::handler`: the executor's
identity and lamports, the vault's and the destination token account's
balances, and the HTLC account's lamports. -/
structure WithdrawAccounts : Type where
  executor : Pubkey
  vault_balance : Nat
  destination_token_balance : Nat
  htlc_lamports : Nat
  executor_lamports : Nat
  deriving DecidableEq, Repr

/-- `withdraw::handler` (`withdraw.rs`): checks the completion flags, the
preimage hash and the time window, then marks the record withdrawn, moves
`amount` tokens from the vault to the destination token account and pays
the `safety_deposit` lamports to the executor. -/
def withdraw_handler (sha256 : Bytes → Bytes) (current_time : Int)
    (htlc : HTLC) (acc : WithdrawAccounts) (preimage : Bytes) :
    Except ProgramError (HTLC × WithdrawAccounts) :=
  if htlc.withdrawn then
    Except.error (ProgramError.htlc HTLCError.AlreadyWithdrawn)
  else if htlc.cancelled then
    Except.error (ProgramError.htlc HTLCError.AlreadyCancelled)
  else if ¬ hashv sha256 [preimage] = htlc.hashlock then
    Except.error (ProgramError.htlc HTLCError.InvalidPreimage)
  else
    let is_resolver := acc.executor = htlc.resolver
    if current_time < htlc.finality_deadline then
      Except.error (ProgramError.htlc HTLCError.WithdrawalNotAllowed)
    else if current_time < htlc.resolver_deadline then
      if ¬ is_resolver then
        Except.error (ProgramError.htlc HTLCError.WithdrawalNotAllowed)
      else withdraw_effect htlc acc
    else if current_time < htlc.public_deadline then
      withdraw_effect htlc acc
    else
      Except.error (ProgramError.htlc HTLCError.WithdrawalNotAllowed)
where
  /-- The success path of `withdraw::handler`: flag flip and the two
  transfers, applied atomically. -/
  withdraw_effect (htlc : HTLC) (acc : WithdrawAccounts) :
      Except ProgramError (HTLC × WithdrawAccounts) :=
    match spl_transfer acc.vault_balance acc.destination_token_balance
        htlc.amount with
    | Except.error e => Except.error e
    | Except.ok (vb, db) =>
      match lamport_transfer acc.htlc_lamports acc.executor_lamports
          htlc.safety_deposit with
      | Except.error e => Except.error e
      | Except.ok (hl, el) =>
        Except.ok ({ htlc with withdrawn := true },
          { acc with
            vault_balance := vb
            destination_token_balance := db
            htlc_lamports := hl
            executor_lamports := el })

/-- The mutable accounts touched by `cancel::handler`: the executor's
identity and lamports, the caller-supplied `src_address` account key, the
vault's and the source token account's balances, and the HTLC account's
lamports. -/
structure CancelAccounts : Type where
  executor : Pubkey
  src_address : Pubkey
  vault_balance : Nat
  src_token_balance : Nat
  htlc_lamports : Nat
  executor_lamports : Nat
  deriving DecidableEq, Repr

/-- `cancel::handler` (`cancel.rs`): validates the supplied source
address, checks the completion flags and the cancellation deadline, then
marks the record cancelled, refunds `amount` tokens from the vault to the
source token account and pays the `safety_deposit` lamports to the
executor. -/
def cancel_handler (current_time : Int) (htlc : HTLC)
    (acc : CancelAccounts) :
    Except ProgramError (HTLC × CancelAccounts) :=
  if ¬ acc.src_address = htlc.src_address then
    Except.error (ProgramError.htlc HTLCError.InvalidDestination)
  else if htlc.withdrawn then
    Except.error (ProgramError.htlc HTLCError.AlreadyWithdrawn)
  else if htlc.cancelled then
    Except.error (ProgramError.htlc HTLCError.AlreadyCancelled)
  else if ¬ current_time ≥ htlc.cancellation_deadline then
    Except.error (ProgramError.htlc HTLCError.CancellationNotAllowed)
  else
    match spl_transfer acc.vault_balance acc.src_token_balance
        htlc.amount with
    | Except.error e => Except.error e
    | Except.ok (vb, sb) =>
      match lamport_transfer acc.htlc_lamports acc.executor_lamports
          htlc.safety_deposit with
      | Except.error e => Except.error e
      | Except.ok (hl, el) =>
        Except.ok ({ htlc with cancelled := true },
          { acc with
            vault_balance := vb
            src_token_balance := sb
            htlc_lamports := hl
            executor_lamports := el })

/-- A storage address.  The HTLC PDA is derived from the seed list
`[b"htlc", htlc_id]` (the `seeds` constraint of the `CreateHTLC`
accounts struct); per the record-storage interface the derived address
is a pure, collision-free function of the seeds, so an address is
embedded as the seed list itself. -/
abbrev Addr : Type := List Bytes

/-- The fixed namespace tag `b"htlc"` (ASCII bytes of `"htlc"`). -/
def htlcTag : Bytes := [104, 116, 108, 99]

/-- The storage address of the escrow record for a given `htlc_id`:
the fixed namespace tag followed by the identifier. -/
def htlc_address (htlc_id : Bytes) : Addr := [htlcTag, htlc_id]

/-- The record store: a map from addresses to escrow records, embedded
as an association list. -/
abbrev Store : Type := List (Addr × HTLC)

/-- `create_htlc` as seen through the record storage: the Anchor `init`
constraint fails with a record-already-exists condition when the address
derived from `htlc_id` is already occupied; otherwise the handler runs
and, on success, the new record is stored at that address.  The vault is
freshly initialized, so its token balance starts at `0`. -/
inductive CreateOutcome : Type
  | ok : Store → HTLC → CreateAccounts → CreateOutcome
  | accountAlreadyExists : CreateOutcome
  | failed : ProgramError → CreateOutcome
  deriving DecidableEq, Repr

/-- Executes `create_htlc` against a store. -/
def create_in_store (store : Store) (current_time : Int) (bump : Nat)
    (acc : CreateAccounts) (params : CreateHTLCParams) : CreateOutcome :=
  let addr := htlc_address params.htlc_id
  if (store.lookup addr).isSome then
    CreateOutcome.accountAlreadyExists
  else
    match create_handler current_time bump
        { acc with vault_balance := 0 } params with
    | Except.error e => CreateOutcome.failed e
    | Except.ok (htlc, acc') =>
        CreateOutcome.ok ((addr, htlc) :: store) htlc acc'

/-- The states of one escrow record reachable by the program: the record
as initialized by a successful `create_htlc`, followed by any sequence of
`withdraw` / `cancel` attempts (failed attempts leave the record
unchanged, so only the successful ones appear as steps). -/
inductive Reach : HTLC → Prop
  | created (current_time : Int) (bump : Nat) (acc : CreateAccounts)
      (params : CreateHTLCParams) (htlc : HTLC) (acc' : CreateAccounts)
      (h : create_handler current_time bump acc params =
        Except.ok (htlc, acc')) : Reach htlc
  | withdrew (sha256 : Bytes → Bytes) (current_time : Int) (htlc : HTLC)
      (acc : WithdrawAccounts) (preimage : Bytes) (htlc' : HTLC)
      (acc' : WithdrawAccounts) (hr : Reach htlc)
      (h : withdraw_handler sha256 current_time htlc acc preimage =
        Except.ok (htlc', acc')) : Reach htlc'
  | cancelledStep (current_time : Int) (htlc : HTLC)
      (acc : CancelAccounts) (htlc' : HTLC) (acc' : CancelAccounts)
      (hr : Reach htlc)
      (h : cancel_handler current_time htlc acc =
        Except.ok (htlc', acc')) : Reach htlc'

/-! ### Helper lemmas characterizing the success paths -/

theorem spl_transfer_ok_iff {f t a : Nat} {p : Nat × Nat} :
    spl_transfer f t a = Except.ok p ↔ a ≤ f ∧ p = (f - a, t + a) := by
  unfold spl_transfer
  split <;> simp_all [eq_comm]

theorem lamport_transfer_ok_iff {f t a : Nat} {p : Nat × Nat} :
    lamport_transfer f t a = Except.ok p ↔ a ≤ f ∧ p = (f - a, t + a) := by
  unfold lamport_transfer
  split <;> simp_all [eq_comm]

theorem withdraw_effect_ok_iff {htlc : HTLC} {acc : WithdrawAccounts}
    {r : HTLC × WithdrawAccounts} :
    withdraw_handler.withdraw_effect htlc acc = Except.ok r ↔
      htlc.amount ≤ acc.vault_balance ∧
      htlc.safety_deposit ≤ acc.htlc_lamports ∧
      r = ({ htlc with withdrawn := true },
        { acc with
          vault_balance := acc.vault_balance - htlc.amount
          destination_token_balance :=
            acc.destination_token_balance + htlc.amount
          htlc_lamports := acc.htlc_lamports - htlc.safety_deposit
          executor_lamports :=
            acc.executor_lamports + htlc.safety_deposit }) := by
  unfold withdraw_handler.withdraw_effect
  constructor
  · intro h
    split at h
    · exact absurd h (by simp)
    · rename_i vb_db heq1
      split at h
      · exact absurd h (by simp)
      · rename_i hl_el heq2
        obtain ⟨h1, h2⟩ := spl_transfer_ok_iff.mp heq1
        obtain ⟨h3, h4⟩ := lamport_transfer_ok_iff.mp heq2
        refine ⟨h1, h3, ?_⟩
        simp only [Except.ok.injEq] at h
        rw [Prod.mk.injEq] at h2 h4
        obtain ⟨rfl, rfl⟩ := h2
        obtain ⟨rfl, rfl⟩ := h4
        exact h.symm
  · rintro ⟨h1, h3, rfl⟩
    rw [show spl_transfer acc.vault_balance acc.destination_token_balance
        htlc.amount = Except.ok (acc.vault_balance - htlc.amount,
          acc.destination_token_balance + htlc.amount) from
      spl_transfer_ok_iff.mpr ⟨h1, rfl⟩]
    rw [show lamport_transfer acc.htlc_lamports acc.executor_lamports
        htlc.safety_deposit = Except.ok
          (acc.htlc_lamports - htlc.safety_deposit,
           acc.executor_lamports + htlc.safety_deposit) from
      lamport_transfer_ok_iff.mpr ⟨h3, rfl⟩]

theorem withdraw_ok_extract {sha256 : Bytes → Bytes} {t : Int}
    {htlc htlc' : HTLC} {acc acc' : WithdrawAccounts} {preimage : Bytes}
    (h : withdraw_handler sha256 t htlc acc preimage =
      Except.ok (htlc', acc')) :
    htlc.withdrawn = false ∧ htlc.cancelled = false ∧
    hashv sha256 [preimage] = htlc.hashlock ∧
    htlc.finality_deadline ≤ t ∧
    ((t < htlc.resolver_deadline ∧ acc.executor = htlc.resolver) ∨
      (htlc.resolver_deadline ≤ t ∧ t < htlc.public_deadline)) ∧
    htlc.amount ≤ acc.vault_balance ∧
    htlc.safety_deposit ≤ acc.htlc_lamports ∧
    htlc' = { htlc with withdrawn := true } ∧
    acc' = { acc with
      vault_balance := acc.vault_balance - htlc.amount
      destination_token_balance :=
        acc.destination_token_balance + htlc.amount
      htlc_lamports := acc.htlc_lamports - htlc.safety_deposit
      executor_lamports :=
        acc.executor_lamports + htlc.safety_deposit } := by
  unfold withdraw_handler at h
  split at h
  · exact absurd h (by simp)
  · split at h
    · exact absurd h (by simp)
    · split at h
      · exact absurd h (by simp)
      · rename_i hw hc hh
        simp only [] at h
        split at h
        · exact absurd h (by simp)
        · split at h
          · split at h
            · exact absurd h (by simp)
            · rename_i hf hr hres
              obtain ⟨h1, h2, h3⟩ := withdraw_effect_ok_iff.mp h
              rw [Prod.mk.injEq] at h3
              exact ⟨by simpa using hw, by simpa using hc, by simpa using hh,
                by omega, Or.inl ⟨hr, by simpa using hres⟩,
                h1, h2, h3.1, h3.2⟩
          · split at h
            · rename_i hf hr hp
              obtain ⟨h1, h2, h3⟩ := withdraw_effect_ok_iff.mp h
              rw [Prod.mk.injEq] at h3
              exact ⟨by simpa using hw, by simpa using hc, by simpa using hh,
                by omega, Or.inr ⟨by omega, hp⟩,
                h1, h2, h3.1, h3.2⟩
            · exact absurd h (by simp)

theorem cancel_ok_extract {t : Int} {htlc htlc' : HTLC}
    {acc acc' : CancelAccounts}
    (h : cancel_handler t htlc acc = Except.ok (htlc', acc')) :
    acc.src_address = htlc.src_address ∧
    htlc.withdrawn = false ∧ htlc.cancelled = false ∧
    htlc.cancellation_deadline ≤ t ∧
    htlc.amount ≤ acc.vault_balance ∧
    htlc.safety_deposit ≤ acc.htlc_lamports ∧
    htlc' = { htlc with cancelled := true } ∧
    acc' = { acc with
      vault_balance := acc.vault_balance - htlc.amount
      src_token_balance := acc.src_token_balance + htlc.amount
      htlc_lamports := acc.htlc_lamports - htlc.safety_deposit
      executor_lamports :=
        acc.executor_lamports + htlc.safety_deposit } := by
  unfold cancel_handler at h
  split at h
  · exact absurd h (by simp)
  · split at h
    · exact absurd h (by simp)
    · split at h
      · exact absurd h (by simp)
      · split at h
        · exact absurd h (by simp)
        · rename_i hs hw hc hd
          split at h
          · exact absurd h (by simp)
          · rename_i vb_sb heq1
            split at h
            · exact absurd h (by simp)
            · rename_i hl_el heq2
              obtain ⟨h1, h2⟩ := spl_transfer_ok_iff.mp heq1
              obtain ⟨h3, h4⟩ := lamport_transfer_ok_iff.mp heq2
              rw [Prod.mk.injEq] at h2 h4
              obtain ⟨rfl, rfl⟩ := h2
              obtain ⟨rfl, rfl⟩ := h4
              simp only [Except.ok.injEq, Prod.mk.injEq] at h
              exact ⟨by simpa using hs, by simpa using hw,
                by simpa using hc, by omega, h1, h3,
                h.1.symm, h.2.symm⟩

theorem create_ok_extract {t : Int} {bump : Nat} {acc acc' : CreateAccounts}
    {params : CreateHTLCParams} {htlc : HTLC}
    (h : create_handler t bump acc params = Except.ok (htlc, acc')) :
    0 < params.amount ∧ 0 < params.safety_deposit ∧
    acc.token_mint ≠ Pubkey.default ∧
    params.dst_address ≠ zeros20 ∧ params.dst_token ≠ zeros20 ∧
    params.finality_deadline < params.resolver_deadline ∧
    params.resolver_deadline < params.public_deadline ∧
    params.public_deadline < params.cancellation_deadline ∧
    params.amount ≤ acc.resolver_token_balance ∧
    params.safety_deposit ≤ acc.resolver_lamports ∧
    htlc = { resolver := acc.resolver
             src_address := acc.resolver
             dst_address := params.dst_address
             src_token := acc.token_mint
             dst_token := params.dst_token
             amount := params.amount
             safety_deposit := params.safety_deposit
             hashlock := params.hashlock
             htlc_id := params.htlc_id
             finality_deadline := params.finality_deadline
             resolver_deadline := params.resolver_deadline
             public_deadline := params.public_deadline
             cancellation_deadline := params.cancellation_deadline
             withdrawn := false
             cancelled := false
             created_at := t
             bump := bump } ∧
    acc' = { acc with
      resolver_token_balance :=
        acc.resolver_token_balance - params.amount
      vault_balance := acc.vault_balance + params.amount
      resolver_lamports := acc.resolver_lamports - params.safety_deposit
      htlc_lamports := acc.htlc_lamports + params.safety_deposit } := by
  unfold create_handler at h
  split at h
  · exact absurd h (by simp)
  · split at h
    · exact absurd h (by simp)
    · split at h
      · exact absurd h (by simp)
      · split at h
        · exact absurd h (by simp)
        · split at h
          · exact absurd h (by simp)
          · split at h
            · exact absurd h (by simp)
            · rename_i ha hs hm hd hdt ho
              simp only [] at h
              split at h
              · exact absurd h (by simp)
              · rename_i rtb_vb heq1
                split at h
                · exact absurd h (by simp)
                · rename_i rl_hl heq2
                  obtain ⟨h1, h2⟩ := spl_transfer_ok_iff.mp heq1
                  obtain ⟨h3, h4⟩ := lamport_transfer_ok_iff.mp heq2
                  rw [Prod.mk.injEq] at h2 h4
                  obtain ⟨rfl, rfl⟩ := h2
                  obtain ⟨rfl, rfl⟩ := h4
                  simp only [Except.ok.injEq, Prod.mk.injEq] at h
                  push_neg at ho
                  exact ⟨by omega, by omega, by simpa using hm,
                    by simpa using hd, by simpa using hdt, ho.1, ho.2.1,
                    ho.2.2, h1, h3, h.1.symm, h.2.symm⟩

theorem withdraw_reaches_effect {sha256 : Bytes → Bytes} {t : Int}
    {htlc : HTLC} {acc : WithdrawAccounts} {preimage : Bytes}
    (hw : htlc.withdrawn = false) (hc : htlc.cancelled = false)
    (hh : hashv sha256 [preimage] = htlc.hashlock)
    (hf : htlc.finality_deadline ≤ t)
    (hwin : (t < htlc.resolver_deadline ∧ acc.executor = htlc.resolver) ∨
      (htlc.resolver_deadline ≤ t ∧ t < htlc.public_deadline)) :
    withdraw_handler sha256 t htlc acc preimage =
      withdraw_handler.withdraw_effect htlc acc := by
  unfold withdraw_handler
  rw [if_neg (by simp [hw]), if_neg (by simp [hc]), if_neg (by simp [hh])]
  simp only []
  rw [if_neg (by omega)]
  rcases hwin with ⟨hr, he⟩ | ⟨hr, hp⟩
  · rw [if_pos hr, if_neg (by simpa using he)]
  · rw [if_neg (by omega), if_pos hp]

theorem withdraw_not_allowed_before_finality {sha256 : Bytes → Bytes}
    {t : Int} {htlc : HTLC} {acc : WithdrawAccounts} {preimage : Bytes}
    (hw : htlc.withdrawn = false) (hc : htlc.cancelled = false)
    (hh : hashv sha256 [preimage] = htlc.hashlock)
    (ht : t < htlc.finality_deadline) :
    withdraw_handler sha256 t htlc acc preimage =
      Except.error (ProgramError.htlc HTLCError.WithdrawalNotAllowed) := by
  unfold withdraw_handler
  rw [if_neg (by simp [hw]), if_neg (by simp [hc]), if_neg (by simp [hh])]
  simp only []
  rw [if_pos ht]

theorem withdraw_not_allowed_non_resolver {sha256 : Bytes → Bytes}
    {t : Int} {htlc : HTLC} {acc : WithdrawAccounts} {preimage : Bytes}
    (hw : htlc.withdrawn = false) (hc : htlc.cancelled = false)
    (hh : hashv sha256 [preimage] = htlc.hashlock)
    (hf : htlc.finality_deadline ≤ t) (hr : t < htlc.resolver_deadline)
    (he : acc.executor ≠ htlc.resolver) :
    withdraw_handler sha256 t htlc acc preimage =
      Except.error (ProgramError.htlc HTLCError.WithdrawalNotAllowed) := by
  unfold withdraw_handler
  rw [if_neg (by simp [hw]), if_neg (by simp [hc]), if_neg (by simp [hh])]
  simp only []
  rw [if_neg (by omega), if_pos hr, if_pos (by simpa using he)]

theorem withdraw_not_allowed_after_public {sha256 : Bytes → Bytes}
    {t : Int} {htlc : HTLC} {acc : WithdrawAccounts} {preimage : Bytes}
    (hw : htlc.withdrawn = false) (hc : htlc.cancelled = false)
    (hh : hashv sha256 [preimage] = htlc.hashlock)
    (hf : htlc.finality_deadline ≤ t) (hr : htlc.resolver_deadline ≤ t)
    (hp : htlc.public_deadline ≤ t) :
    withdraw_handler sha256 t htlc acc preimage =
      Except.error (ProgramError.htlc HTLCError.WithdrawalNotAllowed) := by
  unfold withdraw_handler
  rw [if_neg (by simp [hw]), if_neg (by simp [hc]), if_neg (by simp [hh])]
  simp only []
  rw [if_neg (by omega), if_neg (by omega), if_neg (by omega)]

/-! ### Claim theorems -/

/-- C1: On an escrow whose `withdrawn` and `cancelled` flags are both
false and whose preimage hashes to the hashlock (with the escrow's
deadlines strictly ordered, as `create_htlc` guarantees, and its funds in
place), the outcome of `withdraw` is a four-phase machine in the ledger
time `t`: before `finality_deadline` every caller fails with
`WithdrawalNotAllowed`; from `finality_deadline` (inclusive) up to
`resolver_deadline` the call succeeds exactly for the stored resolver and
any other caller fails with `WithdrawalNotAllowed`; from
`resolver_deadline` (inclusive) up to `public_deadline` every caller
succeeds; and from `public_deadline` (inclusive) on, every caller fails
with `WithdrawalNotAllowed`. -/
theorem C1_withdraw_four_phase_machine (sha256 : Bytes → Bytes) (t : Int)
    (htlc : HTLC) (acc : WithdrawAccounts) (preimage : Bytes)
    (hw : htlc.withdrawn = false) (hc : htlc.cancelled = false)
    (hh : hashv sha256 [preimage] = htlc.hashlock)
    (hord : htlc.finality_deadline < htlc.resolver_deadline ∧
      htlc.resolver_deadline < htlc.public_deadline)
    (hfund : htlc.amount ≤ acc.vault_balance ∧
      htlc.safety_deposit ≤ acc.htlc_lamports) :
    (t < htlc.finality_deadline →
      withdraw_handler sha256 t htlc acc preimage =
        Except.error (ProgramError.htlc HTLCError.WithdrawalNotAllowed)) ∧
    (htlc.finality_deadline ≤ t → t < htlc.resolver_deadline →
      ((∃ r, withdraw_handler sha256 t htlc acc preimage = Except.ok r) ↔
        acc.executor = htlc.resolver) ∧
      (acc.executor ≠ htlc.resolver →
        withdraw_handler sha256 t htlc acc preimage =
          Except.error
            (ProgramError.htlc HTLCError.WithdrawalNotAllowed))) ∧
    (htlc.resolver_deadline ≤ t → t < htlc.public_deadline →
      ∃ r, withdraw_handler sha256 t htlc acc preimage = Except.ok r) ∧
    (htlc.public_deadline ≤ t →
      withdraw_handler sha256 t htlc acc preimage =
        Except.error (ProgramError.htlc HTLCError.WithdrawalNotAllowed)) := by
  refine ⟨fun ht => withdraw_not_allowed_before_finality hw hc hh ht,
    fun hf hr => ⟨⟨fun ⟨r, hok⟩ => ?_, fun he => ?_⟩, fun he =>
      withdraw_not_allowed_non_resolver hw hc hh hf hr he⟩,
    fun hr hp => ?_, fun hp => withdraw_not_allowed_after_public hw hc hh
      (by omega) (by omega) hp⟩
  · obtain ⟨r1, r2⟩ := r
    obtain ⟨_, _, _, _, hwin, _⟩ := withdraw_ok_extract hok
    rcases hwin with ⟨_, he⟩ | ⟨hge, _⟩
    · exact he
    · omega
  · rw [withdraw_reaches_effect hw hc hh hf (Or.inl ⟨hr, he⟩)]
    exact ⟨_, withdraw_effect_ok_iff.mpr ⟨hfund.1, hfund.2, rfl⟩⟩
  · rw [withdraw_reaches_effect hw hc hh (by omega) (Or.inr ⟨hr, hp⟩)]
    exact ⟨_, withdraw_effect_ok_iff.mpr ⟨hfund.1, hfund.2, rfl⟩⟩

/-- Witness for C1 at a concrete escrow: deadlines `100/200/300/400`,
resolver `7`, a digest function returning `[1]`, hashlock `[1]`. -/
theorem C1_witness :
    (let htlc : HTLC :=
      { resolver := 7, src_address := 7, dst_address := [1], src_token := 3,
        dst_token := [2], amount := 5, safety_deposit := 2, hashlock := [1],
        htlc_id := [9], finality_deadline := 100, resolver_deadline := 200,
        public_deadline := 300, cancellation_deadline := 400,
        withdrawn := false, cancelled := false, created_at := 50,
        bump := 0 };
    let acc : WithdrawAccounts :=
      { executor := 7, vault_balance := 5, destination_token_balance := 0,
        htlc_lamports := 2, executor_lamports := 0 };
    (150 : Int) < htlc.resolver_deadline ∧
    ((∃ r, withdraw_handler (fun _ => [1]) 150 htlc acc [] =
        Except.ok r) ↔ acc.executor = htlc.resolver)) := by
  refine ⟨by decide, ?_⟩
  exact ((C1_withdraw_four_phase_machine (fun _ => [1]) 150 _ _ []
    rfl rfl rfl (by constructor <;> decide) (by constructor <;> decide)).2.1
    (by decide) (by decide)).1

/-- C3: Withdraw succeeds only if the digest of the raw preimage bytes
(`hashv` applied to the single slice `preimage`, no salt, no domain
separation) equals the stored hashlock, and on a not-yet-completed record
a preimage whose digest differs from the hashlock fails with
`InvalidPreimage` for every ledger time and every caller: a wrong
preimage never succeeds. -/
theorem C3_wrong_preimage_never_succeeds (sha256 : Bytes → Bytes)
    (t : Int) (htlc : HTLC) (acc : WithdrawAccounts) (preimage : Bytes) :
    (∀ r, withdraw_handler sha256 t htlc acc preimage = Except.ok r →
      sha256 preimage = htlc.hashlock) ∧
    (htlc.withdrawn = false → htlc.cancelled = false →
      sha256 preimage ≠ htlc.hashlock →
      withdraw_handler sha256 t htlc acc preimage =
        Except.error (ProgramError.htlc HTLCError.InvalidPreimage)) := by
  have hflat : hashv sha256 [preimage] = sha256 preimage := by
    simp [hashv]
  constructor
  · rintro ⟨r1, r2⟩ hok
    have := (withdraw_ok_extract hok).2.2.1
    rwa [hflat] at this
  · intro hw hc hh
    unfold withdraw_handler
    rw [if_neg (by simp [hw]), if_neg (by simp [hc]),
      if_pos (by rw [hflat]; exact hh)]

/-- Witness for C3: a record with hashlock `[2]` and a digest function
returning `[1]` fails with `InvalidPreimage`. -/
theorem C3_witness :
    (let htlc : HTLC :=
      { resolver := 7, src_address := 7, dst_address := [1], src_token := 3,
        dst_token := [2], amount := 5, safety_deposit := 2, hashlock := [2],
        htlc_id := [9], finality_deadline := 100, resolver_deadline := 200,
        public_deadline := 300, cancellation_deadline := 400,
        withdrawn := false, cancelled := false, created_at := 50,
        bump := 0 };
    let acc : WithdrawAccounts :=
      { executor := 7, vault_balance := 5, destination_token_balance := 0,
        htlc_lamports := 2, executor_lamports := 0 };
    (fun (_ : Bytes) => ([1] : Bytes)) [] ≠ ([2] : Bytes) ∧
    withdraw_handler (fun _ => [1]) 250 htlc acc [] =
      Except.error (ProgramError.htlc HTLCError.InvalidPreimage)) :=
  ⟨by decide,
    (C3_wrong_preimage_never_succeeds (fun _ => [1]) 250 _ _ []).2
      rfl rfl (by decide)⟩

/-- C7: `withdraw` checks its preconditions in a fixed order — the
completion flags first (`AlreadyWithdrawn` before `AlreadyCancelled`),
then the preimage hash, then the time window — and the first failing
check determines the error: an already-withdrawn record yields
`AlreadyWithdrawn` for every preimage and time, an already-cancelled
(not withdrawn) record yields `AlreadyCancelled` for every preimage and
time, and a wrong preimage on a fresh record yields `InvalidPreimage`
for every time (in particular during the Finality phase, not
`WithdrawalNotAllowed`). -/
theorem C7_withdraw_check_order (sha256 : Bytes → Bytes) (t : Int)
    (htlc : HTLC) (acc : WithdrawAccounts) (preimage : Bytes) :
    (htlc.withdrawn = true →
      withdraw_handler sha256 t htlc acc preimage =
        Except.error (ProgramError.htlc HTLCError.AlreadyWithdrawn)) ∧
    (htlc.withdrawn = false → htlc.cancelled = true →
      withdraw_handler sha256 t htlc acc preimage =
        Except.error (ProgramError.htlc HTLCError.AlreadyCancelled)) ∧
    (htlc.withdrawn = false → htlc.cancelled = false →
      hashv sha256 [preimage] ≠ htlc.hashlock →
      withdraw_handler sha256 t htlc acc preimage =
        Except.error (ProgramError.htlc HTLCError.InvalidPreimage)) := by
  refine ⟨fun hw => ?_, fun hw hc => ?_, fun hw hc hh => ?_⟩
  · unfold withdraw_handler
    rw [if_pos hw]
  · unfold withdraw_handler
    rw [if_neg (by simp [hw]), if_pos hc]
  · unfold withdraw_handler
    rw [if_neg (by simp [hw]), if_neg (by simp [hc]), if_pos hh]

/-- Witness for C7: an already-withdrawn record returns
`AlreadyWithdrawn` even though the supplied preimage is wrong and the
time is before the finality deadline. -/
theorem C7_witness :
    (let htlc : HTLC :=
      { resolver := 7, src_address := 7, dst_address := [1], src_token := 3,
        dst_token := [2], amount := 5, safety_deposit := 2, hashlock := [2],
        htlc_id := [9], finality_deadline := 100, resolver_deadline := 200,
        public_deadline := 300, cancellation_deadline := 400,
        withdrawn := true, cancelled := false, created_at := 50,
        bump := 0 };
    let acc : WithdrawAccounts :=
      { executor := 8, vault_balance := 5, destination_token_balance := 0,
        htlc_lamports := 2, executor_lamports := 0 };
    htlc.withdrawn = true ∧
    withdraw_handler (fun _ => [1]) 50 htlc acc [] =
      Except.error (ProgramError.htlc HTLCError.AlreadyWithdrawn)) :=
  ⟨rfl, (C7_withdraw_check_order (fun _ => [1]) 50 _ _ []).1 rfl⟩

/-- C4: `create_htlc`'s parameter validation is total, deterministic and
sequential, uses strict comparisons, and maps each violation to the exact
enumerated error: `amount == 0` fails with `InvalidAmount`; then
`safety_deposit == 0` with `InvalidSafetyDeposit`; then a default source
token mint with `InvalidTokenMint`; then an all-zero
`destination_address` or all-zero `destination_token` with
`InvalidDestination`; then any violation of
`finality < resolver < public < cancellation` (strict `<`) with
`InvalidTimelockOrder`. -/
theorem C4_create_validation (t : Int) (bump : Nat)
    (acc : CreateAccounts) (params : CreateHTLCParams) :
    (params.amount = 0 →
      create_handler t bump acc params =
        Except.error (ProgramError.htlc HTLCError.InvalidAmount)) ∧
    (params.amount ≠ 0 → params.safety_deposit = 0 →
      create_handler t bump acc params =
        Except.error (ProgramError.htlc HTLCError.InvalidSafetyDeposit)) ∧
    (params.amount ≠ 0 → params.safety_deposit ≠ 0 →
      acc.token_mint = Pubkey.default →
      create_handler t bump acc params =
        Except.error (ProgramError.htlc HTLCError.InvalidTokenMint)) ∧
    (params.amount ≠ 0 → params.safety_deposit ≠ 0 →
      acc.token_mint ≠ Pubkey.default → params.dst_address = zeros20 →
      create_handler t bump acc params =
        Except.error (ProgramError.htlc HTLCError.InvalidDestination)) ∧
    (params.amount ≠ 0 → params.safety_deposit ≠ 0 →
      acc.token_mint ≠ Pubkey.default → params.dst_address ≠ zeros20 →
      params.dst_token = zeros20 →
      create_handler t bump acc params =
        Except.error (ProgramError.htlc HTLCError.InvalidDestination)) ∧
    (params.amount ≠ 0 → params.safety_deposit ≠ 0 →
      acc.token_mint ≠ Pubkey.default → params.dst_address ≠ zeros20 →
      params.dst_token ≠ zeros20 →
      ¬(params.finality_deadline < params.resolver_deadline ∧
        params.resolver_deadline < params.public_deadline ∧
        params.public_deadline < params.cancellation_deadline) →
      create_handler t bump acc params =
        Except.error (ProgramError.htlc HTLCError.InvalidTimelockOrder)) := by
  refine ⟨fun h1 => ?_, fun h1 h2 => ?_, fun h1 h2 h3 => ?_,
    fun h1 h2 h3 h4 => ?_, fun h1 h2 h3 h4 h5 => ?_,
    fun h1 h2 h3 h4 h5 h6 => ?_⟩ <;> unfold create_handler
  · rw [if_pos (by omega)]
  · rw [if_neg (by omega), if_pos (by omega)]
  · rw [if_neg (by omega), if_neg (by omega), if_pos (by simpa using h3)]
  · rw [if_neg (by omega), if_neg (by omega), if_neg (by simpa using h3),
      if_pos (by simpa using h4)]
  · rw [if_neg (by omega), if_neg (by omega), if_neg (by simpa using h3),
      if_neg (by simpa using h4), if_pos (by simpa using h5)]
  · rw [if_neg (by omega), if_neg (by omega), if_neg (by simpa using h3),
      if_neg (by simpa using h4), if_neg (by simpa using h5), if_pos h6]

/-- Witness for C4: equal `resolver_deadline` and `public_deadline`
(violating strictness) fail with `InvalidTimelockOrder`. -/
theorem C4_witness :
    (let params : CreateHTLCParams :=
      { htlc_id := [9], dst_address := [1], dst_token := [2], amount := 5,
        safety_deposit := 2, hashlock := [1], finality_deadline := 100,
        resolver_deadline := 200, public_deadline := 200,
        cancellation_deadline := 400 };
    let acc : CreateAccounts :=
      { resolver := 7, token_mint := 3, resolver_token_balance := 10,
        vault_balance := 0, resolver_lamports := 10, htlc_lamports := 0 };
    params.amount ≠ 0 ∧ params.safety_deposit ≠ 0 ∧
    acc.token_mint ≠ Pubkey.default ∧ params.dst_address ≠ zeros20 ∧
    params.dst_token ≠ zeros20 ∧
    ¬(params.finality_deadline < params.resolver_deadline ∧
      params.resolver_deadline < params.public_deadline ∧
      params.public_deadline < params.cancellation_deadline) ∧
    create_handler 50 0 acc params =
      Except.error (ProgramError.htlc HTLCError.InvalidTimelockOrder)) :=
  ⟨by decide, by decide, by decide, by decide, by decide, by decide,
    (C4_create_validation 50 0 _ _).2.2.2.2.2 (by decide) (by decide)
      (by decide) (by decide) (by decide) (by decide)⟩

theorem cancel_ok_construct {t : Int} {htlc : HTLC} {acc : CancelAccounts}
    (hs : acc.src_address = htlc.src_address)
    (hw : htlc.withdrawn = false) (hc : htlc.cancelled = false)
    (hd : htlc.cancellation_deadline ≤ t)
    (hv : htlc.amount ≤ acc.vault_balance)
    (hl : htlc.safety_deposit ≤ acc.htlc_lamports) :
    cancel_handler t htlc acc =
      Except.ok ({ htlc with cancelled := true },
        { acc with
          vault_balance := acc.vault_balance - htlc.amount
          src_token_balance := acc.src_token_balance + htlc.amount
          htlc_lamports := acc.htlc_lamports - htlc.safety_deposit
          executor_lamports :=
            acc.executor_lamports + htlc.safety_deposit }) := by
  unfold cancel_handler
  rw [if_neg (by simp [hs]), if_neg (by simp [hw]), if_neg (by simp [hc]),
    if_neg (by omega)]
  rw [show spl_transfer acc.vault_balance acc.src_token_balance
      htlc.amount = Except.ok (acc.vault_balance - htlc.amount,
        acc.src_token_balance + htlc.amount) from
    spl_transfer_ok_iff.mpr ⟨hv, rfl⟩]
  rw [show lamport_transfer acc.htlc_lamports acc.executor_lamports
      htlc.safety_deposit = Except.ok
        (acc.htlc_lamports - htlc.safety_deposit,
         acc.executor_lamports + htlc.safety_deposit) from
    lamport_transfer_ok_iff.mpr ⟨hl, rfl⟩]

/-- C5: `cancel` (on a funded escrow) succeeds if and only if the
caller-supplied source account equals the record's stored source
identity, neither completion flag is set, and the current time `t`
satisfies `t ≥ cancellation_deadline`; a source mismatch fails with
`InvalidDestination`, a too-early call with `CancellationNotAllowed`.
The executing caller is unconstrained (the success condition never
mentions the executor), and on success the record is marked cancelled,
exactly `amount` moves from the vault to the source token account, and
exactly `safety_deposit` lamports move from the record to the executing
caller. -/
theorem C5_cancel_characterization (t : Int) (htlc : HTLC)
    (acc : CancelAccounts)
    (hfund : htlc.amount ≤ acc.vault_balance ∧
      htlc.safety_deposit ≤ acc.htlc_lamports) :
    ((∃ r, cancel_handler t htlc acc = Except.ok r) ↔
      acc.src_address = htlc.src_address ∧ htlc.withdrawn = false ∧
      htlc.cancelled = false ∧ htlc.cancellation_deadline ≤ t) ∧
    (acc.src_address ≠ htlc.src_address →
      cancel_handler t htlc acc =
        Except.error (ProgramError.htlc HTLCError.InvalidDestination)) ∧
    (acc.src_address = htlc.src_address → htlc.withdrawn = false →
      htlc.cancelled = false → t < htlc.cancellation_deadline →
      cancel_handler t htlc acc =
        Except.error
          (ProgramError.htlc HTLCError.CancellationNotAllowed)) ∧
    (∀ htlc' acc', cancel_handler t htlc acc = Except.ok (htlc', acc') →
      htlc'.cancelled = true ∧ htlc'.withdrawn = false ∧
      acc'.vault_balance = acc.vault_balance - htlc.amount ∧
      acc'.src_token_balance = acc.src_token_balance + htlc.amount ∧
      acc'.htlc_lamports = acc.htlc_lamports - htlc.safety_deposit ∧
      acc'.executor_lamports =
        acc.executor_lamports + htlc.safety_deposit ∧
      acc'.executor = acc.executor) := by
  refine ⟨⟨fun ⟨r, hok⟩ => ?_, fun ⟨hs, hw, hc, hd⟩ => ?_⟩,
    fun hs => ?_, fun hs hw hc hd => ?_, fun htlc' acc' hok => ?_⟩
  · obtain ⟨r1, r2⟩ := r
    obtain ⟨hs, hw, hc, hd, _⟩ := cancel_ok_extract hok
    exact ⟨hs, hw, hc, hd⟩
  · exact ⟨_, cancel_ok_construct hs hw hc hd hfund.1 hfund.2⟩
  · unfold cancel_handler
    rw [if_pos (by simpa using hs)]
  · unfold cancel_handler
    rw [if_neg (by simp [hs]), if_neg (by simp [hw]),
      if_neg (by simp [hc]), if_pos (by omega)]
  · obtain ⟨_, hw, _, _, _, _, h7, h8⟩ := cancel_ok_extract hok
    subst h7 h8
    exact ⟨rfl, hw, rfl, rfl, rfl, rfl, rfl⟩

/-- Witness for C5: at `t = 450 ≥ 400` a third-party executor (`8`,
distinct from the resolver) successfully cancels, refunding `5` tokens
to the source and paying the `2`-lamport deposit to the executor. -/
theorem C5_witness :
    (let htlc : HTLC :=
      { resolver := 7, src_address := 7, dst_address := [1], src_token := 3,
        dst_token := [2], amount := 5, safety_deposit := 2, hashlock := [1],
        htlc_id := [9], finality_deadline := 100, resolver_deadline := 200,
        public_deadline := 300, cancellation_deadline := 400,
        withdrawn := false, cancelled := false, created_at := 50,
        bump := 0 };
    let acc : CancelAccounts :=
      { executor := 8, src_address := 7, vault_balance := 5,
        src_token_balance := 0, htlc_lamports := 2,
        executor_lamports := 0 };
    htlc.amount ≤ acc.vault_balance ∧
    htlc.safety_deposit ≤ acc.htlc_lamports ∧
    ((∃ r, cancel_handler 450 htlc acc = Except.ok r) ↔
      acc.src_address = htlc.src_address ∧ htlc.withdrawn = false ∧
      htlc.cancelled = false ∧ htlc.cancellation_deadline ≤ (450 : Int))) :=
  ⟨by decide, by decide,
    (C5_cancel_characterization 450 _ _ ⟨by decide, by decide⟩).1⟩

/-- C10: `cancel` validates the supplied source account before the
completion flags and the deadline: a mismatched source fails with
`InvalidDestination` for every record state and time (even already
withdrawn, already cancelled, or before the deadline), and
`AlreadyWithdrawn`, `AlreadyCancelled` and `CancellationNotAllowed` are
only ever returned when the supplied source matches the stored one. -/
theorem C10_cancel_validates_source_first (t : Int) (htlc : HTLC)
    (acc : CancelAccounts) :
    (acc.src_address ≠ htlc.src_address →
      cancel_handler t htlc acc =
        Except.error (ProgramError.htlc HTLCError.InvalidDestination)) ∧
    (∀ e, cancel_handler t htlc acc =
        Except.error (ProgramError.htlc e) →
      (e = HTLCError.AlreadyWithdrawn ∨ e = HTLCError.AlreadyCancelled ∨
        e = HTLCError.CancellationNotAllowed) →
      acc.src_address = htlc.src_address) := by
  constructor
  · intro hs
    unfold cancel_handler
    rw [if_pos (by simpa using hs)]
  · intro e herr hmem
    by_cases hs : acc.src_address = htlc.src_address
    · exact hs
    · exfalso
      have h1 : cancel_handler t htlc acc =
          Except.error
            (ProgramError.htlc HTLCError.InvalidDestination) := by
        unfold cancel_handler
        rw [if_pos (by simpa using hs)]
      rw [h1] at herr
      simp only [Except.error.injEq, ProgramError.htlc.injEq] at herr
      rcases hmem with rfl | rfl | rfl <;> exact absurd herr (by decide)

/-- Witness for C10: on an already-withdrawn record, a cancel whose
supplied source (`8`) mismatches the stored source (`7`) fails with
`InvalidDestination`, not `AlreadyWithdrawn`. -/
theorem C10_witness :
    (let htlc : HTLC :=
      { resolver := 7, src_address := 7, dst_address := [1], src_token := 3,
        dst_token := [2], amount := 5, safety_deposit := 2, hashlock := [1],
        htlc_id := [9], finality_deadline := 100, resolver_deadline := 200,
        public_deadline := 300, cancellation_deadline := 400,
        withdrawn := true, cancelled := false, created_at := 50,
        bump := 0 };
    let acc : CancelAccounts :=
      { executor := 8, src_address := 8, vault_balance := 5,
        src_token_balance := 0, htlc_lamports := 2,
        executor_lamports := 0 };
    acc.src_address ≠ htlc.src_address ∧
    cancel_handler 450 htlc acc =
      Except.error (ProgramError.htlc HTLCError.InvalidDestination)) :=
  ⟨by decide, (C10_cancel_validates_source_first 450 _ _).1 (by decide)⟩

/-- C8: A successful `create_htlc` initializes the record with
`withdrawn = cancelled = false`, `resolver` and `src_address` both equal
to the authenticated caller, all remaining fields equal to the supplied
parameters (destination address/token, source mint, amount, safety
deposit, hashlock, identifier, the four deadlines) and `created_at`
equal to the current clock time; it moves exactly `amount` source tokens
from the resolver's token account into the vault and exactly
`safety_deposit` lamports from the resolver into the record's balance. -/
theorem C8_create_initializes (t : Int) (bump : Nat)
    (acc acc' : CreateAccounts) (params : CreateHTLCParams) (htlc : HTLC)
    (h : create_handler t bump acc params = Except.ok (htlc, acc')) :
    htlc.withdrawn = false ∧ htlc.cancelled = false ∧
    htlc.resolver = acc.resolver ∧ htlc.src_address = acc.resolver ∧
    htlc.dst_address = params.dst_address ∧
    htlc.src_token = acc.token_mint ∧
    htlc.dst_token = params.dst_token ∧
    htlc.amount = params.amount ∧
    htlc.safety_deposit = params.safety_deposit ∧
    htlc.hashlock = params.hashlock ∧
    htlc.htlc_id = params.htlc_id ∧
    htlc.finality_deadline = params.finality_deadline ∧
    htlc.resolver_deadline = params.resolver_deadline ∧
    htlc.public_deadline = params.public_deadline ∧
    htlc.cancellation_deadline = params.cancellation_deadline ∧
    htlc.created_at = t ∧
    params.amount ≤ acc.resolver_token_balance ∧
    params.safety_deposit ≤ acc.resolver_lamports ∧
    acc'.resolver_token_balance =
      acc.resolver_token_balance - params.amount ∧
    acc'.vault_balance = acc.vault_balance + params.amount ∧
    acc'.resolver_lamports = acc.resolver_lamports - params.safety_deposit ∧
    acc'.htlc_lamports = acc.htlc_lamports + params.safety_deposit := by
  obtain ⟨_, _, _, _, _, _, _, _, hrtb, hrl, hh, ha⟩ := create_ok_extract h
  subst hh ha
  exact ⟨rfl, rfl, rfl, rfl, rfl, rfl, rfl, rfl, rfl, rfl, rfl, rfl,
    rfl, rfl, rfl, rfl, hrtb, hrl, rfl, rfl, rfl, rfl⟩

/-- Witness for C8: a concrete successful create at clock `50`. -/
theorem C8_witness :
    (let params : CreateHTLCParams :=
      { htlc_id := [9], dst_address := [1], dst_token := [2], amount := 5,
        safety_deposit := 2, hashlock := [1], finality_deadline := 100,
        resolver_deadline := 200, public_deadline := 300,
        cancellation_deadline := 400 };
    let acc : CreateAccounts :=
      { resolver := 7, token_mint := 3, resolver_token_balance := 10,
        vault_balance := 0, resolver_lamports := 10, htlc_lamports := 0 };
    ∃ htlc acc', create_handler 50 0 acc params =
        Except.ok (htlc, acc') ∧
      (htlc.withdrawn = false ∧ htlc.cancelled = false ∧
       htlc.resolver = acc.resolver ∧ htlc.src_address = acc.resolver ∧
       acc'.vault_balance = acc.vault_balance + params.amount)) := by
  refine ⟨_, _, (by rfl : create_handler 50 0 _ _ = Except.ok
    ({ resolver := 7, src_address := 7, dst_address := [1], src_token := 3,
       dst_token := [2], amount := 5, safety_deposit := 2, hashlock := [1],
       htlc_id := [9], finality_deadline := 100, resolver_deadline := 200,
       public_deadline := 300, cancellation_deadline := 400,
       withdrawn := false, cancelled := false, created_at := 50,
       bump := 0 },
     { resolver := 7, token_mint := 3, resolver_token_balance := 5,
       vault_balance := 5, resolver_lamports := 8, htlc_lamports := 2 })),
    ?_⟩
  have h := C8_create_initializes 50 0 _ _ _ _ (by rfl : create_handler
    50 0
    { resolver := 7, token_mint := 3, resolver_token_balance := 10,
      vault_balance := 0, resolver_lamports := 10, htlc_lamports := 0 }
    { htlc_id := [9], dst_address := [1], dst_token := [2], amount := 5,
      safety_deposit := 2, hashlock := [1], finality_deadline := 100,
      resolver_deadline := 200, public_deadline := 300,
      cancellation_deadline := 400 } = Except.ok
    ({ resolver := 7, src_address := 7, dst_address := [1], src_token := 3,
       dst_token := [2], amount := 5, safety_deposit := 2, hashlock := [1],
       htlc_id := [9], finality_deadline := 100, resolver_deadline := 200,
       public_deadline := 300, cancellation_deadline := 400,
       withdrawn := false, cancelled := false, created_at := 50,
       bump := 0 },
     { resolver := 7, token_mint := 3, resolver_token_balance := 5,
       vault_balance := 5, resolver_lamports := 8, htlc_lamports := 2 }))
  exact ⟨h.1, h.2.1, h.2.2.1, h.2.2.2.1, h.2.2.2.2.2.2.2.2.2.2.2.2.2.2.2.2.2.2.2.1⟩

/-- C9: Round-trip accounting: for an escrow created with amount `A` and
safety deposit `D`, a subsequent successful withdraw decreases the
vault's token balance by exactly `A` (credited in full to the destination
token account) and the record's lamport balance by exactly `D` (credited
in full to the executing caller), with no other balance or field of the
withdraw accounts changed. -/
theorem C9_round_trip_accounting (t1 : Int) (bump : Nat)
    (cacc cacc' : CreateAccounts) (params : CreateHTLCParams)
    (htlc htlc' : HTLC) (sha256 : Bytes → Bytes) (t2 : Int)
    (wacc wacc' : WithdrawAccounts) (preimage : Bytes)
    (hcreate : create_handler t1 bump cacc params =
      Except.ok (htlc, cacc'))
    (hwithdraw : withdraw_handler sha256 t2 htlc wacc preimage =
      Except.ok (htlc', wacc')) :
    params.amount ≤ wacc.vault_balance ∧
    params.safety_deposit ≤ wacc.htlc_lamports ∧
    wacc'.vault_balance = wacc.vault_balance - params.amount ∧
    wacc'.destination_token_balance =
      wacc.destination_token_balance + params.amount ∧
    wacc'.htlc_lamports = wacc.htlc_lamports - params.safety_deposit ∧
    wacc'.executor_lamports =
      wacc.executor_lamports + params.safety_deposit ∧
    wacc'.executor = wacc.executor := by
  obtain ⟨_, _, _, _, _, _, _, _, _, _, hhtlc, _⟩ :=
    create_ok_extract hcreate
  obtain ⟨_, _, _, _, _, hv, hl, _, hacc⟩ := withdraw_ok_extract hwithdraw
  have hA : htlc.amount = params.amount := by rw [hhtlc]
  have hD : htlc.safety_deposit = params.safety_deposit := by rw [hhtlc]
  subst hacc
  rw [hA] at hv
  rw [hD] at hl
  exact ⟨hv, hl, by rw [← hA], by rw [← hA], by rw [← hD], by rw [← hD],
    rfl⟩

/-- Witness for C9: the concrete create of C8's escrow followed by a
resolver withdraw at `t = 150` moves `5` tokens out of the vault and `2`
lamports out of the record. -/
theorem C9_witness :
    (let params : CreateHTLCParams :=
      { htlc_id := [9], dst_address := [1], dst_token := [2], amount := 5,
        safety_deposit := 2, hashlock := [1], finality_deadline := 100,
        resolver_deadline := 200, public_deadline := 300,
        cancellation_deadline := 400 };
    let wacc : WithdrawAccounts :=
      { executor := 7, vault_balance := 5, destination_token_balance := 0,
        htlc_lamports := 2, executor_lamports := 0 };
    let wacc' : WithdrawAccounts :=
      { executor := 7, vault_balance := 0, destination_token_balance := 5,
        htlc_lamports := 0, executor_lamports := 2 };
    wacc'.vault_balance = wacc.vault_balance - params.amount ∧
    wacc'.destination_token_balance =
      wacc.destination_token_balance + params.amount ∧
    wacc'.htlc_lamports = wacc.htlc_lamports - params.safety_deposit ∧
    wacc'.executor_lamports =
      wacc.executor_lamports + params.safety_deposit ∧
    wacc'.executor = wacc.executor) := by
  have h := C9_round_trip_accounting 50 0
    { resolver := 7, token_mint := 3, resolver_token_balance := 10,
      vault_balance := 0, resolver_lamports := 10, htlc_lamports := 0 }
    { resolver := 7, token_mint := 3, resolver_token_balance := 5,
      vault_balance := 5, resolver_lamports := 8, htlc_lamports := 2 }
    { htlc_id := [9], dst_address := [1], dst_token := [2], amount := 5,
      safety_deposit := 2, hashlock := [1], finality_deadline := 100,
      resolver_deadline := 200, public_deadline := 300,
      cancellation_deadline := 400 }
    { resolver := 7, src_address := 7, dst_address := [1], src_token := 3,
      dst_token := [2], amount := 5, safety_deposit := 2, hashlock := [1],
      htlc_id := [9], finality_deadline := 100, resolver_deadline := 200,
      public_deadline := 300, cancellation_deadline := 400,
      withdrawn := false, cancelled := false, created_at := 50,
      bump := 0 }
    { resolver := 7, src_address := 7, dst_address := [1], src_token := 3,
      dst_token := [2], amount := 5, safety_deposit := 2, hashlock := [1],
      htlc_id := [9], finality_deadline := 100, resolver_deadline := 200,
      public_deadline := 300, cancellation_deadline := 400,
      withdrawn := true, cancelled := false, created_at := 50,
      bump := 0 }
    (fun _ => [1]) 150
    { executor := 7, vault_balance := 5, destination_token_balance := 0,
      htlc_lamports := 2, executor_lamports := 0 }
    { executor := 7, vault_balance := 0, destination_token_balance := 5,
      htlc_lamports := 0, executor_lamports := 2 }
    [] (by rfl) (by rfl)
  exact ⟨h.2.2.1, h.2.2.2.1, h.2.2.2.2.1, h.2.2.2.2.2.1, h.2.2.2.2.2.2⟩

/-- C6: The escrow record's storage address is a deterministic function
of `htlc_id` alone (the fixed namespace tag `b"htlc"` plus the
identifier), two distinct identifiers never share an address, a
successful create stores the record at exactly that address, and a
second create with the same identifier against the resulting store fails
with the record-already-exists condition. -/
theorem C6_unique_address_single_create :
    (∀ id1 id2 : Bytes, htlc_address id1 = htlc_address id2 →
      id1 = id2) ∧
    (∀ store t bump acc params store' htlc acc',
      create_in_store store t bump acc params =
        CreateOutcome.ok store' htlc acc' →
      store' = (htlc_address params.htlc_id, htlc) :: store ∧
      ∀ t2 bump2 acc2 (params2 : CreateHTLCParams),
        params2.htlc_id = params.htlc_id →
        create_in_store store' t2 bump2 acc2 params2 =
          CreateOutcome.accountAlreadyExists) := by
  constructor
  · intro id1 id2 h
    simpa [htlc_address] using h
  · intro store t bump acc params store' htlc acc' h
    have hstore : store' = (htlc_address params.htlc_id, htlc) :: store := by
      unfold create_in_store at h
      simp only [] at h
      by_cases hlk :
        (List.lookup (htlc_address params.htlc_id) store).isSome
      · rw [if_pos hlk] at h
        exact absurd h (by simp)
      · rw [if_neg hlk] at h
        revert h
        cases create_handler t bump { acc with vault_balance := 0 }
            params with
        | error e =>
          intro h
          exact absurd h (by simp)
        | ok p =>
          obtain ⟨htlc2, acc2⟩ := p
          intro h
          simp only [CreateOutcome.ok.injEq] at h
          rw [← h.1, h.2.1]
    refine ⟨hstore, fun t2 bump2 acc2 params2 hid => ?_⟩
    unfold create_in_store
    simp only [hstore, hid]
    rw [if_pos (by simp [List.lookup])]

/-- Witness for C6: a concrete create into the empty store, followed by
a second create with the same identifier, which is rejected. -/
theorem C6_witness :
    (let params : CreateHTLCParams :=
      { htlc_id := [9], dst_address := [1], dst_token := [2], amount := 5,
        safety_deposit := 2, hashlock := [1], finality_deadline := 100,
        resolver_deadline := 200, public_deadline := 300,
        cancellation_deadline := 400 };
    let acc : CreateAccounts :=
      { resolver := 7, token_mint := 3, resolver_token_balance := 10,
        vault_balance := 0, resolver_lamports := 10, htlc_lamports := 0 };
    let htlc : HTLC :=
      { resolver := 7, src_address := 7, dst_address := [1], src_token := 3,
        dst_token := [2], amount := 5, safety_deposit := 2, hashlock := [1],
        htlc_id := [9], finality_deadline := 100, resolver_deadline := 200,
        public_deadline := 300, cancellation_deadline := 400,
        withdrawn := false, cancelled := false, created_at := 50,
        bump := 0 };
    let acc' : CreateAccounts :=
      { resolver := 7, token_mint := 3, resolver_token_balance := 5,
        vault_balance := 5, resolver_lamports := 8, htlc_lamports := 2 };
    create_in_store [] 50 0 acc params =
      CreateOutcome.ok [(htlc_address [9], htlc)] htlc acc' ∧
    create_in_store [(htlc_address [9], htlc)] 60 0 acc params =
      CreateOutcome.accountAlreadyExists) := by
  refine ⟨by rfl, ?_⟩
  exact ((C6_unique_address_single_create).2 [] 50 0
    { resolver := 7, token_mint := 3, resolver_token_balance := 10,
      vault_balance := 0, resolver_lamports := 10, htlc_lamports := 0 }
    { htlc_id := [9], dst_address := [1], dst_token := [2], amount := 5,
      safety_deposit := 2, hashlock := [1], finality_deadline := 100,
      resolver_deadline := 200, public_deadline := 300,
      cancellation_deadline := 400 }
    _ _ _ (by rfl)).2 60 0 _ _ rfl

/-- Counterexample to C2 as stated: a reachable record with
`withdrawn = true` (created, then withdrawn by its resolver) on which a
later Cancel attempt fails with `InvalidDestination` — not
`AlreadyWithdrawn` — because the caller-supplied source account (`8`)
mismatches the stored source (`7`) and `cancel` checks the source before
the completion flags. -/
theorem C2_counterexample :
    (let params : CreateHTLCParams :=
      { htlc_id := [9], dst_address := [1], dst_token := [2], amount := 5,
        safety_deposit := 2, hashlock := [1], finality_deadline := 100,
        resolver_deadline := 200, public_deadline := 300,
        cancellation_deadline := 400 };
    let cacc : CreateAccounts :=
      { resolver := 7, token_mint := 3, resolver_token_balance := 10,
        vault_balance := 0, resolver_lamports := 10, htlc_lamports := 0 };
    let htlc0 : HTLC :=
      { resolver := 7, src_address := 7, dst_address := [1], src_token := 3,
        dst_token := [2], amount := 5, safety_deposit := 2, hashlock := [1],
        htlc_id := [9], finality_deadline := 100, resolver_deadline := 200,
        public_deadline := 300, cancellation_deadline := 400,
        withdrawn := false, cancelled := false, created_at := 50,
        bump := 0 };
    let htlc1 : HTLC := { htlc0 with withdrawn := true };
    let wacc : WithdrawAccounts :=
      { executor := 7, vault_balance := 5, destination_token_balance := 0,
        htlc_lamports := 2, executor_lamports := 0 };
    let badCancelAcc : CancelAccounts :=
      { executor := 8, src_address := 8, vault_balance := 0,
        src_token_balance := 0, htlc_lamports := 0,
        executor_lamports := 0 };
    create_handler 50 0 cacc params = Except.ok (htlc0,
      { resolver := 7, token_mint := 3, resolver_token_balance := 5,
        vault_balance := 5, resolver_lamports := 8,
        htlc_lamports := 2 }) ∧
    withdraw_handler (fun _ => [1]) 150 htlc0 wacc [] = Except.ok (htlc1,
      { executor := 7, vault_balance := 0, destination_token_balance := 5,
        htlc_lamports := 0, executor_lamports := 2 }) ∧
    htlc1.withdrawn = true ∧
    cancel_handler 450 htlc1 badCancelAcc =
      Except.error (ProgramError.htlc HTLCError.InvalidDestination) ∧
    HTLCError.InvalidDestination ≠ HTLCError.AlreadyWithdrawn) :=
  ⟨by rfl, by rfl, rfl, by rfl, by decide⟩

/-- C2 (amended): for every reachable escrow record, `withdrawn` and
`cancelled` are never both true; once either flag is true no Withdraw or
Cancel succeeds again, for any number of retries, so at most one of
Withdraw/Cancel ever succeeds on a record.  Every later Withdraw fails
with the corresponding `AlreadyX` error (`AlreadyWithdrawn` when
`withdrawn`, `AlreadyCancelled` when only `cancelled`), and every later
Cancel whose supplied source account matches the stored one fails with
the corresponding `AlreadyX` error (a mismatched-source Cancel fails
with `InvalidDestination` instead, as the source check runs first). -/
theorem C2_single_completion_amended :
    (∀ htlc, Reach htlc →
      ¬(htlc.withdrawn = true ∧ htlc.cancelled = true)) ∧
    (∀ (sha256 : Bytes → Bytes) (t : Int) htlc acc preimage r,
      (htlc.withdrawn = true ∨ htlc.cancelled = true) →
      withdraw_handler sha256 t htlc acc preimage ≠ Except.ok r) ∧
    (∀ (t : Int) htlc acc r,
      (htlc.withdrawn = true ∨ htlc.cancelled = true) →
      cancel_handler t htlc acc ≠ Except.ok r) ∧
    (∀ (sha256 : Bytes → Bytes) (t : Int) htlc acc preimage,
      htlc.withdrawn = true →
      withdraw_handler sha256 t htlc acc preimage =
        Except.error (ProgramError.htlc HTLCError.AlreadyWithdrawn)) ∧
    (∀ (sha256 : Bytes → Bytes) (t : Int) htlc acc preimage,
      htlc.withdrawn = false → htlc.cancelled = true →
      withdraw_handler sha256 t htlc acc preimage =
        Except.error (ProgramError.htlc HTLCError.AlreadyCancelled)) ∧
    (∀ (t : Int) htlc acc, acc.src_address = htlc.src_address →
      htlc.withdrawn = true →
      cancel_handler t htlc acc =
        Except.error (ProgramError.htlc HTLCError.AlreadyWithdrawn)) ∧
    (∀ (t : Int) htlc acc, acc.src_address = htlc.src_address →
      htlc.withdrawn = false → htlc.cancelled = true →
      cancel_handler t htlc acc =
        Except.error (ProgramError.htlc HTLCError.AlreadyCancelled)) := by
  refine ⟨fun htlc hr => ?_, fun sha256 t htlc acc preimage r hflag hok => ?_,
    fun t htlc acc r hflag hok => ?_, fun sha256 t htlc acc preimage hw => ?_,
    fun sha256 t htlc acc preimage hw hc => ?_,
    fun t htlc acc hs hw => ?_, fun t htlc acc hs hw hc => ?_⟩
  · induction hr with
    | created t0 bump0 acc0 params0 htlc0 acc0' h =>
      obtain ⟨_, _, _, _, _, _, _, _, _, _, hh, _⟩ := create_ok_extract h
      subst hh
      simp
    | withdrew sha256 t0 h0 acc0 preimage0 h1 acc1 hr h ih =>
      obtain ⟨_, hc, _, _, _, _, _, hh, _⟩ := withdraw_ok_extract h
      subst hh
      simp [hc]
    | cancelledStep t0 h0 acc0 h1 acc1 hr h ih =>
      obtain ⟨_, hw, _, _, _, _, hh, _⟩ := cancel_ok_extract h
      subst hh
      simp [hw]
  · obtain ⟨r1, r2⟩ := r
    obtain ⟨hw, hc, _⟩ := withdraw_ok_extract hok
    rcases hflag with h | h <;> simp_all
  · obtain ⟨r1, r2⟩ := r
    obtain ⟨_, hw, hc, _⟩ := cancel_ok_extract hok
    rcases hflag with h | h <;> simp_all
  · unfold withdraw_handler
    rw [if_pos hw]
  · unfold withdraw_handler
    rw [if_neg (by simp [hw]), if_pos hc]
  · unfold cancel_handler
    rw [if_neg (by simp [hs]), if_pos hw]
  · unfold cancel_handler
    rw [if_neg (by simp [hs]), if_neg (by simp [hw]), if_pos hc]

/-- Witness for C2 (amended) at the concrete escrow of the
counterexample: the freshly created record is reachable and has no flag
set twice, and a matching-source Cancel on the withdrawn record fails
with `AlreadyWithdrawn`. -/
theorem C2_witness :
    (let htlc0 : HTLC :=
      { resolver := 7, src_address := 7, dst_address := [1], src_token := 3,
        dst_token := [2], amount := 5, safety_deposit := 2, hashlock := [1],
        htlc_id := [9], finality_deadline := 100, resolver_deadline := 200,
        public_deadline := 300, cancellation_deadline := 400,
        withdrawn := false, cancelled := false, created_at := 50,
        bump := 0 };
    let htlc1 : HTLC := { htlc0 with withdrawn := true };
    let goodCancelAcc : CancelAccounts :=
      { executor := 8, src_address := 7, vault_balance := 0,
        src_token_balance := 0, htlc_lamports := 0,
        executor_lamports := 0 };
    ¬(htlc0.withdrawn = true ∧ htlc0.cancelled = true) ∧
    cancel_handler 450 htlc1 goodCancelAcc =
      Except.error (ProgramError.htlc HTLCError.AlreadyWithdrawn)) :=
  ⟨C2_single_completion_amended.1 _
    (Reach.created 50 0
      { resolver := 7, token_mint := 3, resolver_token_balance := 10,
        vault_balance := 0, resolver_lamports := 10, htlc_lamports := 0 }
      { htlc_id := [9], dst_address := [1], dst_token := [2], amount := 5,
        safety_deposit := 2, hashlock := [1], finality_deadline := 100,
        resolver_deadline := 200, public_deadline := 300,
        cancellation_deadline := 400 }
      _
      { resolver := 7, token_mint := 3, resolver_token_balance := 5,
        vault_balance := 5, resolver_lamports := 8, htlc_lamports := 2 }
      (by rfl)),
    C2_single_completion_amended.2.2.2.2.2.1 450 _ _ rfl rfl⟩

end BlSvm
